import Mathlib

/-!
Shallow embedding of the PitchLens front-end (Lender-AI repository):
the deal-workflow orchestration logic of the analysis dashboard, the
investor dashboard list, the public interview chat page, the per-deal
chat widget and the authenticated fetch wrapper, together with proofs
of the specified behavioural properties.
-/

namespace LenderAI

/-! ## Weighted recalculation (analysis-dashboard.tsx)

`Weightages` mirrors the `Weightages` type of `analysis-dashboard.tsx`;
`totalWeight` mirrors `Object.values(weights).reduce((sum, w) => sum + w, 0)`
and `recalculateDisabled` mirrors the dialog footer button guard
`disabled={totalWeight !== 100 || isRecalculating}`. -/

structure Weightages where
  teamStrength : Int
  marketOpportunity : Int
  traction : Int
  claimCredibility : Int
  financialHealth : Int
deriving Repr, DecidableEq

def totalWeight (w : Weightages) : Int :=
  w.teamStrength + w.marketOpportunity + w.traction +
    w.claimCredibility + w.financialHealth

def recalculateDisabled (w : Weightages) (isRecalculating : Bool) : Bool :=
  decide (totalWeight w ≠ 100) || isRecalculating

/-! ## Investment-decision polling (analysis-dashboard.tsx, useEffect)

The effect starts a `setInterval` only when `analysisData.investment_decision`
is absent; every 10000 ms tick re-fetches the deal; when a fetch returns an
ok response whose record carries `investment_decision`, the interval is
cleared; on any other outcome (http error, exception, record still without
the field) nothing changes and the interval keeps running; the cleanup
returned by the effect clears the interval. -/

inductive FetchOutcome where
  /-- fetch threw, or `response.ok` was false: the tick does nothing. -/
  | httpError : FetchOutcome
  /-- `response.ok`, with the fetched record carrying (or not)
  `investment_decision`. -/
  | okRecord (hasDecision : Bool) : FetchOutcome
deriving Repr, DecidableEq

structure PollState where
  /-- the interval is currently installed (not yet cleared). -/
  active : Bool
  /-- number of ticks (re-fetches) performed so far. -/
  attempts : Nat
deriving Repr, DecidableEq

def pollInit (recordHasDecision : Bool) : PollState :=
  if recordHasDecision then { active := false, attempts := 0 }
  else { active := true, attempts := 0 }

def pollTick (s : PollState) (o : FetchOutcome) : PollState :=
  if s.active then
    match o with
    | .okRecord true => { active := false, attempts := s.attempts + 1 }
    | _ => { active := true, attempts := s.attempts + 1 }
  else s

def pollRun (s : PollState) : List FetchOutcome → PollState
  | [] => s
  | o :: os => pollRun (pollTick s o) os

/-- `setInterval(..., 10000)`: the delay before every tick is the same
constant 10000 ms, whatever the attempt count — no backoff. -/
def pollDelayMs (_attempt : Nat) : Nat := 10000

/-- the cleanup function returned by the effect: `clearInterval`. -/
def pollCleanup (s : PollState) : PollState := { s with active := false }

/-! ## Dashboard tab set (analysis-dashboard.tsx, TabsList)

`AnalysisRecord` embeds the fields of `AnalysisData` that the `TabsList`
JSX reads: `metadata?.processing_mode`, `interview` (status plus issues),
`memo?.draft_v1?.interview_insights` (only its key count matters), and the
presence flags of `risk_metrics`, `investment_decision` and `fact_check`,
which the tab conditions never consult. -/

structure InterviewRec where
  status : String
  /-- outstanding issue questions; only the length matters to the tabs. -/
  issues : List String
deriving Repr, DecidableEq

structure MemoDraftDash where
  /-- `Object.keys(interview_insights)` when the section is present. -/
  interview_insights : Option (List String)
  risk_metrics_present : Bool
deriving Repr, DecidableEq

structure AnalysisRecord where
  /-- `analysisData?.metadata?.processing_mode` (none when metadata absent). -/
  processing_mode : Option String
  interview : Option InterviewRec
  memo_draft : Option MemoDraftDash
  investment_decision_present : Bool
  fact_check_present : Bool
deriving Repr, DecidableEq

inductive Tab where
  | overview | market | model | financials | risks | issues | insights
  | decision | factCheck
deriving Repr, DecidableEq

/-- `interview?.status !== 'completed' && interview?.issues &&
interview.issues.length > 0` (with `interview` absent, `issues` is
undefined, hence falsy). -/
def showIssuesTab (a : AnalysisRecord) : Bool :=
  match a.interview with
  | none => false
  | some i => decide (i.status ≠ "completed") && decide (0 < i.issues.length)

/-- `interview?.status === 'completed' && insights &&
Object.keys(insights).length > 0` with
`insights = memo?.draft_v1?.interview_insights`. -/
def showInsightsTab (a : AnalysisRecord) : Bool :=
  (match a.interview with
   | none => false
   | some i => decide (i.status = "completed")) &&
  (match a.memo_draft.bind (·.interview_insights) with
   | none => false
   | some keys => decide (0 < keys.length))

/-- the rendered `TabsTrigger` list, in JSX order; the risks, decision and
fact-check triggers are guarded by
`analysisData?.metadata?.processing_mode !== 'fast'`. -/
def dashboardTabs (a : AnalysisRecord) : List Tab :=
  [Tab.overview, Tab.market, Tab.model, Tab.financials] ++
  (if a.processing_mode ≠ some "fast" then [Tab.risks] else []) ++
  (if showIssuesTab a then [Tab.issues] else []) ++
  (if showInsightsTab a then [Tab.insights] else []) ++
  (if a.processing_mode ≠ some "fast" then [Tab.decision] else []) ++
  (if a.processing_mode ≠ some "fast" then [Tab.factCheck] else [])

/-! ## Shared helper

`jsOrString o fallback` embeds the JavaScript expression `x || fallback`
on an optional string `x`: the fallback is used when `x` is absent or the
empty string (both falsy). -/

def jsOrString (o : Option String) (fallback : String) : String :=
  match o with
  | none => fallback
  | some s => if s = "" then fallback else s

/-- `String.prototype.trim()`: drop whitespace from both ends. -/
def jsTrim (s : String) : String :=
  ⟨((s.data.dropWhile Char.isWhitespace).reverse.dropWhile Char.isWhitespace).reverse⟩

/-! ## Public interview chat page (app/interview/[token]/page.tsx)

`IMsg` mirrors `ChatMessage` of `lib/types.ts`; `interviewSendMessage`
embeds `handleSendMessage`: the guard `if (!input.trim() || !token) return`,
the optimistic `setMessages([...messages, userMessage])`, the POST body
`{ interview_token: token, message: input }`, the append of the assistant
reply on success, and the rollback `setMessages(messages)` on failure. -/

structure IMsg where
  role : String
  message : String
  timestamp : String
deriving Repr, DecidableEq

structure ChatRequestBody where
  interview_token : String
  message : String
deriving Repr, DecidableEq

inductive SendOutcome where
  /-- `response.ok` with `result.message` as reply. -/
  | ok (reply : String) : SendOutcome
  /-- `!response.ok` (with its `detail`) or a thrown exception. -/
  | sendError (detail : Option String) : SendOutcome
deriving Repr, DecidableEq

structure SendResult where
  /-- the body of the POST to `/api/interviews/chat`, when one was sent. -/
  request : Option ChatRequestBody
  /-- the message list immediately after the optimistic append. -/
  optimistic : List IMsg
  /-- the message list once the send settled. -/
  messages : List IMsg
deriving Repr, DecidableEq

def interviewSendMessage (token : String) (messages : List IMsg)
    (input : String) (now : String) (outcome : SendOutcome) : SendResult :=
  if jsTrim input = "" ∨ token = "" then
    { request := none, optimistic := messages, messages := messages }
  else
    let userMessage : IMsg := { role := "user", message := input, timestamp := now }
    let newMessages := messages ++ [userMessage]
    match outcome with
    | .ok reply =>
        { request := some { interview_token := token, message := input },
          optimistic := newMessages,
          messages := newMessages ++
            [{ role := "assistant", message := reply, timestamp := now }] }
    | .sendError _ =>
        { request := some { interview_token := token, message := input },
          optimistic := newMessages,
          messages := messages }

/-! Token validation (`validateToken`) and the page render branches. -/

structure ValidationResponse where
  valid : Bool
  deal_id : String
  company_name : String
  sector : String
  founder_name : String
  status : String
  missing_fields_count : Nat
  chat_history : List IMsg
deriving Repr, DecidableEq

inductive ValidateOutcome where
  /-- `!response.ok`, with the HTTP status and the `detail` field of the
  parsed error body. -/
  | http (status : Nat) (detail : Option String) : ValidateOutcome
  /-- `response.ok` with the parsed `ValidationResponse`. -/
  | payload (data : ValidationResponse) : ValidateOutcome
deriving Repr, DecidableEq

def invalidOrExpiredMsg : String := "This interview link is invalid or has expired."

def validateToken : ValidateOutcome → Except String ValidationResponse
  | .http status detail =>
      if status = 404 ∨ status = 403 then
        .error (jsOrString detail invalidOrExpiredMsg)
      else
        .error "Failed to validate the interview session."
  | .payload data =>
      if data.valid = false then .error invalidOrExpiredMsg
      else .ok data

inductive PageView where
  | loadingView : PageView
  /-- the `if (error)` branch: a Header plus a destructive Alert holding
  the message; the branch renders no button or other retry control, so
  `hasRetryControl` is `false` whenever this constructor is produced. -/
  | errorPanel (message : String) (hasRetryControl : Bool) : PageView
  | notFoundView : PageView
  | chatView (data : ValidationResponse) (messages : List IMsg) : PageView
deriving Repr, DecidableEq

def renderInterviewPage (isLoading : Bool) (error : Option String)
    (validationData : Option ValidationResponse) (messages : List IMsg) : PageView :=
  if isLoading then .loadingView
  else
    match error with
    | some msg => .errorPanel msg false
    | none =>
        match validationData with
        | none => .notFoundView
        | some d => .chatView d messages

/-- the page state reached once the validation effect settled: on error,
`setError(err.message)` with `validationData` still `null`; on success,
`setValidationData(data)` and `setMessages(data.chat_history)`. -/
def interviewPageAfterValidation (outcome : ValidateOutcome) : PageView :=
  match validateToken outcome with
  | .error msg => renderInterviewPage false (some msg) none []
  | .ok data => renderInterviewPage false none (some data) data.chat_history

/-! ## Per-deal chat widget (Chatbot component)

`CMsg` mirrors the widget's `Message` type (`role: 'user' | 'model'`).
`loadChatHistory` embeds the load-from-localStorage effect: a missing
stored value or a `JSON.parse` failure initializes the history with the
single greeting from the model; a parsed value replaces it wholesale.
`chatbotSendMessage` embeds `handleSendMessage`: immediate append of the
user message, then the model reply on success or the fixed fallback
message on failure (no rollback). -/

structure CMsg where
  role : String
  content : String
deriving Repr, DecidableEq

def chatFallbackMessage : CMsg :=
  { role := "model", content := "Sorry, I encountered an error. Please try again." }

def greetingMessage (companyName : String) : CMsg :=
  { role := "model",
    content := "Hello! I\x27ve analyzed the pitch deck for **" ++ companyName ++
      "**. I can answer questions about their business model, market, team, or financials based on the deck and my research. What would you like to know?" }

def chatStorageKey (dealId : String) : String := "chat_history_" ++ dealId

inductive StoredHistory where
  /-- `localStorage.getItem` returned `null`. -/
  | absent : StoredHistory
  /-- a stored string on which `JSON.parse` throws. -/
  | unparsable (raw : String) : StoredHistory
  /-- a stored string that parses to a message list. -/
  | parsed (msgs : List CMsg) : StoredHistory
deriving Repr, DecidableEq

def loadChatHistory (companyName : String) : StoredHistory → List CMsg
  | .absent => [greetingMessage companyName]
  | .unparsable _ => [greetingMessage companyName]
  | .parsed msgs => msgs

inductive ChatOutcome where
  | ok (reply : String) : ChatOutcome
  /-- `!response.ok` or a thrown exception. -/
  | failure : ChatOutcome
deriving Repr, DecidableEq

structure ChatSendResult where
  /-- the list right after the immediate append of the user message. -/
  optimistic : List CMsg
  /-- the list once the request settled. -/
  messages : List CMsg
deriving Repr, DecidableEq

def chatbotSendMessage (messages : List CMsg) (input : String)
    (outcome : ChatOutcome) : ChatSendResult :=
  if jsTrim input = "" then { optimistic := messages, messages := messages }
  else
    let newMessages := messages ++ [{ role := "user", content := input }]
    match outcome with
    | .ok reply =>
        { optimistic := newMessages,
          messages := newMessages ++ [{ role := "model", content := reply }] }
    | .failure =>
        { optimistic := newMessages,
          messages := newMessages ++ [chatFallbackMessage] }

/-! ## Investor dashboard list (InvestorDashboard component)

`StartupCard` embeds the fields of a listed deal that `renderContent` and
`handleDelete` read. `cardScore` embeds
`memo?.risk_metrics?.composite_risk_score || 0` (with
`memo = startup.memo?.draft_v1`); on an integer `x`, `x || 0` is `x`
unless `x = 0`, where both sides are `0`, so `Option.getD 0` matches.
`scoreColor` embeds the cascading reassignment of `scoreColor`. -/

structure RiskMetricsCard where
  composite_risk_score : Option Int
deriving Repr, DecidableEq

structure ConclusionCard where
  overall_attractiveness : Option String
deriving Repr, DecidableEq

structure MemoDraftCard where
  risk_metrics : Option RiskMetricsCard
  conclusion : Option ConclusionCard
deriving Repr, DecidableEq

structure MemoCard where
  draft_v1 : Option MemoDraftCard
deriving Repr, DecidableEq

structure StartupCard where
  id : String
  company_name : String
  sector : String
  processing_mode : String
  memo : Option MemoCard
deriving Repr, DecidableEq

def cardMemoDraft (s : StartupCard) : Option MemoDraftCard :=
  s.memo.bind (·.draft_v1)

def cardScoreOpt (s : StartupCard) : Option Int :=
  ((cardMemoDraft s).bind (·.risk_metrics)).bind (·.composite_risk_score)

def cardScore (s : StartupCard) : Int := (cardScoreOpt s).getD 0

def scoreGreen : String := "text-green-600 bg-green-50 border-green-200"

def scoreYellow : String := "text-yellow-600 bg-yellow-50 border-yellow-200"

def scoreRed : String := "text-red-600 bg-red-50 border-red-200"

def scoreColor (score : Int) : String :=
  let c := scoreGreen
  let c := if score > 30 then scoreYellow else c
  if score > 60 then scoreRed else c

def cardRecommendation (s : StartupCard) : String :=
  jsOrString (((cardMemoDraft s).bind (·.conclusion)).bind (·.overall_attractiveness))
    "N/A"

/-- the score bubble is rendered only when
`startup.metadata.processing_mode !== 'fast'`; it shows `score` with the
color classes of `scoreColor`. -/
def renderedScoreBadge (s : StartupCard) : Option (Int × String) :=
  if s.processing_mode ≠ "fast" then some (cardScore s, scoreColor (cardScore s))
  else none

inductive DeleteOutcome where
  | ok : DeleteOutcome
  /-- `!response.ok` or a thrown exception. -/
  | failure : DeleteOutcome
deriving Repr, DecidableEq

structure DeleteResult where
  /-- the list right after the optimistic `setStartups(filter ...)`. -/
  optimistic : List StartupCard
  /-- the list once the DELETE settled. -/
  final : List StartupCard
  errorToast : Bool
  successToast : Bool
deriving Repr, DecidableEq

def handleDelete (startups : List StartupCard) (startupId : String)
    (outcome : DeleteOutcome) : DeleteResult :=
  let originalStartups := startups
  let filtered := startups.filter (fun s => s.id != startupId)
  match outcome with
  | .ok =>
      { optimistic := filtered, final := filtered,
        errorToast := false, successToast := true }
  | .failure =>
      { optimistic := filtered, final := originalStartups,
        errorToast := true, successToast := false }

/-! ## Authenticated fetch wrapper (lib/api-client.ts)

`getAuthHeaders` returns `{}` when `auth.currentUser` is `null` and when
`user.getIdToken()` throws, and the single Authorization header
otherwise; `authenticatedFetch` copies the auth headers onto the caller's
headers with `Headers.set` and forwards the request unchanged otherwise. -/

structure HttpRequest where
  url : String
  method : String
  headers : List (String × String)
  body : Option String
deriving Repr, DecidableEq

inductive TokenResult where
  | ok (token : String) : TokenResult
  /-- `user.getIdToken()` threw. -/
  | errorThrown : TokenResult
deriving Repr, DecidableEq

def getAuthHeaders (currentUser : Option String) (tokenResult : TokenResult) :
    List (String × String) :=
  match currentUser with
  | none => []
  | some _ =>
      match tokenResult with
      | .ok token => [("Authorization", "Bearer " ++ token)]
      | .errorThrown => []

/-- `Headers.set`: replace the value under an existing key, else append. -/
def headerSet (hs : List (String × String)) (k v : String) :
    List (String × String) :=
  if hs.any (fun kv => kv.1 == k) then
    hs.map (fun kv => if kv.1 == k then (k, v) else kv)
  else hs ++ [(k, v)]

def authenticatedFetch (currentUser : Option String) (tokenResult : TokenResult)
    (req : HttpRequest) : HttpRequest :=
  let authHeaders := getAuthHeaders currentUser tokenResult
  { req with
    headers := authHeaders.foldl (fun hs kv => headerSet hs kv.1 kv.2) req.headers }

theorem pollRun_no_decision (outs : List FetchOutcome)
    (h : ∀ o ∈ outs, o ≠ FetchOutcome.okRecord true) (s : PollState)
    (hs : s.active = true) :
    pollRun s outs = { active := true, attempts := s.attempts + outs.length } := by
  induction outs generalizing s with
  | nil => simp [pollRun, hs.symm]
  | cons o os ih =>
      have ho : o ≠ FetchOutcome.okRecord true := h o (List.mem_cons_self o os)
      have hos : ∀ x ∈ os, x ≠ FetchOutcome.okRecord true :=
        fun x hx => h x (List.mem_cons_of_mem o hx)
      have htick : pollTick s o = { active := true, attempts := s.attempts + 1 } := by
        cases o with
        | httpError => simp [pollTick, hs]
        | okRecord b =>
            cases b with
            | false => simp [pollTick, hs]
            | true => exact absurd rfl ho
      rw [pollRun, htick, ih hos _ rfl]
      simp [Nat.add_comm, Nat.add_assoc, Nat.add_left_comm]

end LenderAI

/-- C2: the dashboard polls only while `investment_decision` is absent
(a record that already has it starts no interval); the delay is the
fixed constant 10000 ms for every attempt; a running interval is
cleared by a tick exactly when the fetched record contains
`investment_decision`; any run of ticks none of which returns such a
record leaves the interval running after all of them, with one fetch
per tick and no attempt cap; only the effect cleanup tears the
interval down. -/
theorem c2_decision_polling (s : LenderAI.PollState) (o : LenderAI.FetchOutcome)
    (outs : List LenderAI.FetchOutcome) (n : Nat)
    (hs : s.active = true)
    (houts : ∀ x ∈ outs, x ≠ LenderAI.FetchOutcome.okRecord true) :
    LenderAI.pollInit true = { active := false, attempts := 0 } ∧
    LenderAI.pollInit false = { active := true, attempts := 0 } ∧
    LenderAI.pollDelayMs n = 10000 ∧
    ((LenderAI.pollTick s o).active = false ↔ o = LenderAI.FetchOutcome.okRecord true) ∧
    LenderAI.pollRun (LenderAI.pollInit false) outs =
      { active := true, attempts := outs.length } ∧
    (LenderAI.pollCleanup s).active = false := by
  refine ⟨rfl, rfl, rfl, ?_, ?_, rfl⟩
  · constructor
    · intro h
      cases o with
      | httpError => simp [LenderAI.pollTick, hs] at h
      | okRecord b =>
          cases b with
          | false => simp [LenderAI.pollTick, hs] at h
          | true => rfl
    · intro h
      subst h
      simp [LenderAI.pollTick, hs]
  · have := LenderAI.pollRun_no_decision outs houts (LenderAI.pollInit false) rfl
    simpa [LenderAI.pollInit] using this

/-- C2 witness: a concrete run of two unsuccessful ticks keeps the
interval alive; a decision-bearing fetch clears it. -/
theorem c2_decision_polling_witness :
    (⟨true, 0⟩ : LenderAI.PollState).active = true ∧
    (∀ x ∈ [LenderAI.FetchOutcome.httpError, LenderAI.FetchOutcome.okRecord false],
      x ≠ LenderAI.FetchOutcome.okRecord true) ∧
    (LenderAI.pollRun (LenderAI.pollInit false)
        [LenderAI.FetchOutcome.httpError, LenderAI.FetchOutcome.okRecord false] =
      { active := true, attempts := 2 } ∧
    ((LenderAI.pollTick ⟨true, 0⟩ (LenderAI.FetchOutcome.okRecord true)).active = false ↔
      LenderAI.FetchOutcome.okRecord true = LenderAI.FetchOutcome.okRecord true)) := by
  refine ⟨rfl, by decide, ?_, ?_⟩
  · exact (c2_decision_polling ⟨true, 0⟩ (LenderAI.FetchOutcome.okRecord true)
      [LenderAI.FetchOutcome.httpError, LenderAI.FetchOutcome.okRecord false] 0
      rfl (by decide)).2.2.2.2.1
  · exact (c2_decision_polling ⟨true, 0⟩ (LenderAI.FetchOutcome.okRecord true)
      [LenderAI.FetchOutcome.httpError, LenderAI.FetchOutcome.okRecord false] 0
      rfl (by decide)).2.2.2.1

/-- C3: when `processing_mode = "fast"` the rendered tab set contains
none of the Risks, Fund Decision and Fact Check tabs, whatever the rest
of the record (in particular whatever the presence flags of
`risk_metrics`, `investment_decision` and `fact_check`); for any record
whose processing mode is not `"fast"` all three tabs are rendered. -/
theorem c3_fast_mode_tabs (a : LenderAI.AnalysisRecord) :
    (a.processing_mode = some "fast" →
      LenderAI.Tab.risks ∉ LenderAI.dashboardTabs a ∧
      LenderAI.Tab.decision ∉ LenderAI.dashboardTabs a ∧
      LenderAI.Tab.factCheck ∉ LenderAI.dashboardTabs a) ∧
    (a.processing_mode ≠ some "fast" →
      LenderAI.Tab.risks ∈ LenderAI.dashboardTabs a ∧
      LenderAI.Tab.decision ∈ LenderAI.dashboardTabs a ∧
      LenderAI.Tab.factCheck ∈ LenderAI.dashboardTabs a) := by
  constructor
  · intro h
    simp only [LenderAI.dashboardTabs, h]
    refine ⟨?_, ?_, ?_⟩ <;>
      · simp only [List.mem_append, List.mem_cons, List.mem_singleton]
        rintro (h' | h') <;>
          simp_all [LenderAI.showIssuesTab, LenderAI.showInsightsTab]
  · intro h
    simp only [LenderAI.dashboardTabs, if_pos h]
    refine ⟨?_, ?_, ?_⟩ <;> simp [List.mem_append]

/-- C3 witness: a fast-mode record with all optional sections present
still renders no risks, decision or fact-check tab; flipping only the
mode to research renders all three. -/
theorem c3_fast_mode_tabs_witness :
    ((⟨some "fast", some ⟨"active", ["q1"]⟩, some ⟨some ["k"], true⟩, true, true⟩ :
        LenderAI.AnalysisRecord).processing_mode = some "fast" ∧
      LenderAI.Tab.risks ∉ LenderAI.dashboardTabs
        ⟨some "fast", some ⟨"active", ["q1"]⟩, some ⟨some ["k"], true⟩, true, true⟩) ∧
    ((⟨some "research", none, none, false, false⟩ :
        LenderAI.AnalysisRecord).processing_mode ≠ some "fast" ∧
      LenderAI.Tab.factCheck ∈ LenderAI.dashboardTabs
        ⟨some "research", none, none, false, false⟩) :=
  ⟨⟨rfl, ((c3_fast_mode_tabs _).1 rfl).1⟩,
   ⟨by decide, ((c3_fast_mode_tabs
      ⟨some "research", none, none, false, false⟩).2 (by decide)).2.2⟩⟩

/-- C1: for every tuple of the five weight values, the Generate Summary
button is enabled (not disabled) in the idle state exactly when the
weights sum to 100, and for any sum other than 100 the button is
disabled in every state, so no recalculation request can be issued. -/
theorem c1_recalculate_enabled_iff_sum_100 (w : LenderAI.Weightages) :
    (LenderAI.recalculateDisabled w false = false ↔ LenderAI.totalWeight w = 100) ∧
    (LenderAI.totalWeight w ≠ 100 →
      ∀ r : Bool, LenderAI.recalculateDisabled w r = true) := by
  constructor
  · constructor
    · intro h
      by_contra hne
      simp [LenderAI.recalculateDisabled, hne] at h
    · intro h
      simp [LenderAI.recalculateDisabled, h]
  · intro h r
    simp [LenderAI.recalculateDisabled, h]

/-- C4: in the public token-based interview chat, a non-empty message
sent with a non-empty token is appended optimistically to the local
history, the POST body carries the full token together with the message,
and on send failure the history is rolled back to the exact pre-send
snapshot. -/
theorem c4_interview_send_rollback (token : String) (messages : List LenderAI.IMsg)
    (input now : String) (detail : Option String)
    (hin : LenderAI.jsTrim input ≠ "") (htok : token ≠ "") :
    (LenderAI.interviewSendMessage token messages input now
        (LenderAI.SendOutcome.sendError detail)).optimistic =
      messages ++ [{ role := "user", message := input, timestamp := now }] ∧
    (LenderAI.interviewSendMessage token messages input now
        (LenderAI.SendOutcome.sendError detail)).request =
      some { interview_token := token, message := input } ∧
    (LenderAI.interviewSendMessage token messages input now
        (LenderAI.SendOutcome.sendError detail)).messages = messages := by
  simp [LenderAI.interviewSendMessage, hin, htok]

/-- C4 witness: a concrete failed send of a real question rolls the
history back to the empty pre-send snapshot. -/
theorem c4_interview_send_rollback_witness :
    (LenderAI.jsTrim "What is your ARR?" ≠ "" ∧ "tok-1" ≠ "") ∧
    (LenderAI.interviewSendMessage "tok-1" [] "What is your ARR?" "t0"
        (LenderAI.SendOutcome.sendError none)).messages = [] :=
  ⟨⟨by decide, by decide⟩,
    (c4_interview_send_rollback "tok-1" [] "What is your ARR?" "t0" none
      (by decide) (by decide)).2.2⟩

/-- C5: in the per-deal chat widget a non-empty message is appended
immediately to the history; on request failure the resulting history is
the pre-send history, then the user message, then the single fixed
fallback model message, with no rollback. -/
theorem c5_chatbot_fallback (messages : List LenderAI.CMsg) (input : String)
    (h : LenderAI.jsTrim input ≠ "") :
    (LenderAI.chatbotSendMessage messages input LenderAI.ChatOutcome.failure).optimistic =
      messages ++ [{ role := "user", content := input }] ∧
    (LenderAI.chatbotSendMessage messages input LenderAI.ChatOutcome.failure).messages =
      messages ++ [{ role := "user", content := input }] ++ [LenderAI.chatFallbackMessage] ∧
    LenderAI.chatFallbackMessage.content = "Sorry, I encountered an error. Please try again." := by
  refine ⟨?_, ?_, rfl⟩ <;> simp [LenderAI.chatbotSendMessage, h]

/-- C5 witness: sending a concrete question while the request fails
leaves the user message followed by the fallback message. -/
theorem c5_chatbot_fallback_witness :
    LenderAI.jsTrim "What is your ARR?" ≠ "" ∧
    (LenderAI.chatbotSendMessage [] "What is your ARR?" LenderAI.ChatOutcome.failure).messages =
      [] ++ [{ role := "user", content := "What is your ARR?" }] ++
        [LenderAI.chatFallbackMessage] :=
  ⟨by decide, (c5_chatbot_fallback [] "What is your ARR?" (by decide)).2.1⟩

/-- C6: deleting a deal filters it out of the list optimistically before
the request settles (every remaining card has a different id); on
failure the list is restored to its exact pre-delete contents and the
error toast is shown; on success the filtered list stands and no error
toast is shown. -/
theorem c6_delete_optimistic_rollback (startups : List LenderAI.StartupCard)
    (startupId : String) :
    ((LenderAI.handleDelete startups startupId LenderAI.DeleteOutcome.failure).optimistic =
        startups.filter (fun s => s.id != startupId) ∧
      (LenderAI.handleDelete startups startupId LenderAI.DeleteOutcome.failure).final =
        startups ∧
      (LenderAI.handleDelete startups startupId LenderAI.DeleteOutcome.failure).errorToast =
        true) ∧
    ((LenderAI.handleDelete startups startupId LenderAI.DeleteOutcome.ok).final =
        startups.filter (fun s => s.id != startupId) ∧
      (LenderAI.handleDelete startups startupId LenderAI.DeleteOutcome.ok).errorToast =
        false) ∧
    (∀ o : LenderAI.DeleteOutcome,
      ((LenderAI.handleDelete startups startupId o).optimistic.all
        (fun s => s.id != startupId)) = true) := by
  refine ⟨⟨rfl, rfl, rfl⟩, ⟨rfl, rfl⟩, ?_⟩
  intro o
  have hopt : (LenderAI.handleDelete startups startupId o).optimistic =
      startups.filter (fun s => s.id != startupId) := by
    cases o <;> rfl
  rw [hopt, List.all_eq_true]
  intro s hs
  exact (List.mem_filter.mp hs).2

/-- C7: a validation response with HTTP status 403 or 404, or an ok
payload with `valid = false`, leaves the page in the terminal error
panel with no retry control, showing the backend `detail` when it is a
non-empty string and the fixed invalid-or-expired message otherwise;
the chat view is never reached from either outcome. -/
theorem c7_invalid_token_terminal (status : Nat) (detail : Option String)
    (data : LenderAI.ValidationResponse)
    (hstatus : status = 403 ∨ status = 404) (hvalid : data.valid = false) :
    LenderAI.interviewPageAfterValidation (LenderAI.ValidateOutcome.http status detail) =
      LenderAI.PageView.errorPanel
        (LenderAI.jsOrString detail LenderAI.invalidOrExpiredMsg) false ∧
    LenderAI.interviewPageAfterValidation (LenderAI.ValidateOutcome.payload data) =
      LenderAI.PageView.errorPanel LenderAI.invalidOrExpiredMsg false ∧
    (∀ d msgs, LenderAI.interviewPageAfterValidation
        (LenderAI.ValidateOutcome.http status detail) ≠
      LenderAI.PageView.chatView d msgs) ∧
    (∀ d msgs, LenderAI.interviewPageAfterValidation
        (LenderAI.ValidateOutcome.payload data) ≠
      LenderAI.PageView.chatView d msgs) ∧
    (∀ d : String, d ≠ "" →
      LenderAI.jsOrString (some d) LenderAI.invalidOrExpiredMsg = d) ∧
    LenderAI.jsOrString none LenderAI.invalidOrExpiredMsg =
      LenderAI.invalidOrExpiredMsg := by
  have hcond : status = 404 ∨ status = 403 := hstatus.symm
  have h1 : LenderAI.interviewPageAfterValidation
      (LenderAI.ValidateOutcome.http status detail) =
      LenderAI.PageView.errorPanel
        (LenderAI.jsOrString detail LenderAI.invalidOrExpiredMsg) false := by
    simp [LenderAI.interviewPageAfterValidation, LenderAI.validateToken, hcond,
      LenderAI.renderInterviewPage]
  have h2 : LenderAI.interviewPageAfterValidation
      (LenderAI.ValidateOutcome.payload data) =
      LenderAI.PageView.errorPanel LenderAI.invalidOrExpiredMsg false := by
    simp [LenderAI.interviewPageAfterValidation, LenderAI.validateToken, hvalid,
      LenderAI.renderInterviewPage]
  refine ⟨h1, h2, ?_, ?_, ?_, rfl⟩
  · intro d msgs hcontra
    rw [h1] at hcontra
    exact LenderAI.PageView.noConfusion hcontra
  · intro d msgs hcontra
    rw [h2] at hcontra
    exact LenderAI.PageView.noConfusion hcontra
  · intro d hd
    simp [LenderAI.jsOrString, hd]

/-- C7 witness: a concrete 403 response with a detail message renders
the terminal error panel carrying that detail. -/
theorem c7_invalid_token_terminal_witness :
    ((403 : Nat) = 403 ∨ (403 : Nat) = 404) ∧
    (⟨false, "d1", "Acme", "SaaS", "Jo", "expired", 0, []⟩ :
      LenderAI.ValidationResponse).valid = false ∧
    LenderAI.interviewPageAfterValidation
        (LenderAI.ValidateOutcome.http 403 (some "Token expired")) =
      LenderAI.PageView.errorPanel
        (LenderAI.jsOrString (some "Token expired") LenderAI.invalidOrExpiredMsg)
        false :=
  ⟨Or.inl rfl, rfl,
    (c7_invalid_token_terminal 403 (some "Token expired")
      ⟨false, "d1", "Acme", "SaaS", "Jo", "expired", 0, []⟩
      (Or.inl rfl) rfl).1⟩

/-- C8: with a signed-in user and a successfully obtained token, the
forwarded request carries the `Authorization: Bearer <token>` header;
with no signed-in user or a token error the request is forwarded
completely unchanged; in every case the url, method and body are those
the caller supplied, so the wrapper never blocks or fails a request. -/
theorem c8_authenticated_fetch (u token : String) (req : LenderAI.HttpRequest)
    (currentUser : Option String) (tokenResult : LenderAI.TokenResult)
    (h : currentUser = none ∨ tokenResult = LenderAI.TokenResult.errorThrown) :
    ("Authorization", "Bearer " ++ token) ∈
      (LenderAI.authenticatedFetch (some u) (LenderAI.TokenResult.ok token) req).headers ∧
    LenderAI.authenticatedFetch currentUser tokenResult req = req ∧
    (∀ cu tr, (LenderAI.authenticatedFetch cu tr req).url = req.url ∧
      (LenderAI.authenticatedFetch cu tr req).method = req.method ∧
      (LenderAI.authenticatedFetch cu tr req).body = req.body) := by
  refine ⟨?_, ?_, ?_⟩
  · show ("Authorization", "Bearer " ++ token) ∈
      LenderAI.headerSet req.headers "Authorization" ("Bearer " ++ token)
    unfold LenderAI.headerSet
    split
    · rename_i hany
      rw [List.any_eq_true] at hany
      obtain ⟨kv, hmem, hkey⟩ := hany
      refine List.mem_map.mpr ⟨kv, hmem, ?_⟩
      simp [hkey]
    · exact List.mem_append.mpr (Or.inr (List.mem_singleton.mpr rfl))
  · have hempty : LenderAI.getAuthHeaders currentUser tokenResult = [] := by
      rcases h with h | h
      · simp [LenderAI.getAuthHeaders, h]
      · cases currentUser <;> simp [LenderAI.getAuthHeaders, h]
    simp [LenderAI.authenticatedFetch, hempty]
  · intro cu tr
    exact ⟨rfl, rfl, rfl⟩

/-- C8 witness: concrete requests with and without a session. -/
theorem c8_authenticated_fetch_witness :
    ((none : Option String) = none ∨
      LenderAI.TokenResult.errorThrown = LenderAI.TokenResult.errorThrown) ∧
    LenderAI.authenticatedFetch none LenderAI.TokenResult.errorThrown
        ⟨"https://api/deals", "GET", [("Accept", "application/json")], none⟩ =
      ⟨"https://api/deals", "GET", [("Accept", "application/json")], none⟩ ∧
    ("Authorization", "Bearer " ++ "t1") ∈
      (LenderAI.authenticatedFetch (some "u1") (LenderAI.TokenResult.ok "t1")
        ⟨"https://api/deals", "GET", [("Accept", "application/json")], none⟩).headers :=
  ⟨Or.inl rfl,
    (c8_authenticated_fetch "u1" "t1"
      ⟨"https://api/deals", "GET", [("Accept", "application/json")], none⟩
      none LenderAI.TokenResult.errorThrown (Or.inl rfl)).2.1,
    (c8_authenticated_fetch "u1" "t1"
      ⟨"https://api/deals", "GET", [("Accept", "application/json")], none⟩
      none LenderAI.TokenResult.errorThrown (Or.inl rfl)).1⟩

/-- C9: a listed deal whose memo chain yields no composite risk score
shows score 0 and, when not in fast mode, the green color band; a
missing recommendation renders as the string N/A; the bands are green
for scores up to 30, yellow above 30 up to 60, red above 60; and any
deal whose actual stored score is 0 shows the same score value, so the
unprocessed deal is indistinguishable from a genuinely low-risk one. -/
theorem c9_card_score_defaults (s : LenderAI.StartupCard) (n : Int)
    (hscore : LenderAI.cardScoreOpt s = none)
    (hmode : s.processing_mode ≠ "fast")
    (hrec : (((LenderAI.cardMemoDraft s).bind (·.conclusion)).bind
      (·.overall_attractiveness)) = none) :
    LenderAI.cardScore s = 0 ∧
    LenderAI.renderedScoreBadge s = some (0, LenderAI.scoreGreen) ∧
    LenderAI.cardRecommendation s = "N/A" ∧
    ((n ≤ 30 → LenderAI.scoreColor n = LenderAI.scoreGreen) ∧
     (30 < n → n ≤ 60 → LenderAI.scoreColor n = LenderAI.scoreYellow) ∧
     (60 < n → LenderAI.scoreColor n = LenderAI.scoreRed)) ∧
    (∀ t : LenderAI.StartupCard, LenderAI.cardScoreOpt t = some 0 →
      LenderAI.cardScore t = LenderAI.cardScore s) := by
  have hzero : LenderAI.cardScore s = 0 := by
    simp [LenderAI.cardScore, hscore]
  refine ⟨hzero, ?_, ?_, ⟨?_, ?_, ?_⟩, ?_⟩
  · rw [LenderAI.renderedScoreBadge, if_pos hmode, hzero]
    have : LenderAI.scoreColor 0 = LenderAI.scoreGreen := by
      simp [LenderAI.scoreColor]
    rw [this]
  · simp [LenderAI.cardRecommendation, hrec, LenderAI.jsOrString]
  · intro hle
    unfold LenderAI.scoreColor
    rw [if_neg (by omega), if_neg (by omega)]
  · intro h30 h60
    unfold LenderAI.scoreColor
    rw [if_neg (by omega), if_pos h30]
  · intro h60
    unfold LenderAI.scoreColor
    rw [if_pos (by omega)]
  · intro t ht
    simp [LenderAI.cardScore, ht, hscore]

/-- C9 witness: a research-mode deal with no memo at all shows score 0
in the green band and recommendation N/A. -/
theorem c9_card_score_defaults_witness :
    LenderAI.cardScoreOpt ⟨"id1", "Acme", "SaaS", "research", none⟩ = none ∧
    (⟨"id1", "Acme", "SaaS", "research", none⟩ :
      LenderAI.StartupCard).processing_mode ≠ "fast" ∧
    LenderAI.renderedScoreBadge ⟨"id1", "Acme", "SaaS", "research", none⟩ =
      some (0, LenderAI.scoreGreen) ∧
    LenderAI.cardRecommendation ⟨"id1", "Acme", "SaaS", "research", none⟩ = "N/A" :=
  ⟨rfl, by decide,
    (c9_card_score_defaults ⟨"id1", "Acme", "SaaS", "research", none⟩ 0
      rfl (by decide) rfl).2.1,
    (c9_card_score_defaults ⟨"id1", "Acme", "SaaS", "research", none⟩ 0
      rfl (by decide) rfl).2.2.1⟩

/-- C10: on mount the chat widget reads the cache under key
`chat_history_<dealId>`; a missing value and a value that fails to parse
both initialize the history to exactly one greeting message from the
model; a successfully parsed value replaces the history wholesale. -/
theorem c10_chat_history_load (companyName dealId raw : String)
    (msgs : List LenderAI.CMsg) :
    LenderAI.chatStorageKey dealId = "chat_history_" ++ dealId ∧
    LenderAI.loadChatHistory companyName LenderAI.StoredHistory.absent =
      [LenderAI.greetingMessage companyName] ∧
    LenderAI.loadChatHistory companyName (LenderAI.StoredHistory.unparsable raw) =
      [LenderAI.greetingMessage companyName] ∧
    LenderAI.loadChatHistory companyName (LenderAI.StoredHistory.parsed msgs) = msgs ∧
    (LenderAI.greetingMessage companyName).role = "model" :=
  ⟨rfl, rfl, rfl, rfl, rfl⟩

/-- C1 witness: concrete instances of both directions of the theorem. -/
theorem c1_recalculate_enabled_iff_sum_100_witness :
    (LenderAI.recalculateDisabled ⟨20, 20, 20, 20, 20⟩ false = false ↔
      LenderAI.totalWeight ⟨20, 20, 20, 20, 20⟩ = 100) ∧
    (LenderAI.totalWeight ⟨20, 20, 20, 20, 25⟩ ≠ 100 →
      ∀ r : Bool, LenderAI.recalculateDisabled ⟨20, 20, 20, 20, 25⟩ r = true) :=
  ⟨(c1_recalculate_enabled_iff_sum_100 ⟨20, 20, 20, 20, 20⟩).1,
   (c1_recalculate_enabled_iff_sum_100 ⟨20, 20, 20, 20, 25⟩).2⟩
